import Mathlib

/-!
Verification of the Hubble-tension reproduction script
(`papers/hubble_reproduction.py`) and of the specified Epistemic Merge &
Concordance Engine that the script calls.

The script itself is a thin reporting harness: numeric work in it is the
initial-gap computation, the tension-reduction percentage, the result
dictionary and the significance classification.  Those parts are embedded
below over exact rationals, with the external engine functions
(`merge_with_epistemic_correction`, `calculate_concordance_stats`) taken as
abstract parameters, since their implementation is not in the repository.

The engine itself (MeasurementModel construction, EpistemicMerger,
ConcordanceAnalyzer) is absent from the source; it is modelled from the
specification over the reals, where its square-root formulas live.
-/

namespace HubbleReproduction

/-- Script-level view of a measurement object, as the fields the script
reads from the objects returned by `create_measurement`
(name, value, sigma, redshift, omega_m, method). -/
structure Measurement where
  name : String
  value : ℚ
  sigma : ℚ
  redshift : ℚ
  omega_m : ℚ
  method : String
deriving DecidableEq

/-- The dictionary returned by `merge_with_epistemic_correction`, as the
script reads it (keys h0_merged, u_merged, delta_T). -/
structure MergeOutput where
  h0_merged : ℚ
  u_merged : ℚ
  delta_T : ℚ
deriving DecidableEq

/-- The dictionary returned by `calculate_concordance_stats`, as the script
reads it (keys offset_km_s_Mpc, significance_sigma). -/
structure ConcordanceOutput where
  offset_km_s_Mpc : ℚ
  significance_sigma : ℚ
deriving DecidableEq

/-- The dictionary returned by `main` (source lines 163-169): exactly the
five keys h0_merged, u_merged, delta_T, concordance_pct, significance. -/
structure MainOutput where
  h0_merged : ℚ
  u_merged : ℚ
  delta_T : ℚ
  concordance_pct : ℚ
  significance : ℚ
deriving DecidableEq

/-- The Planck 2018 CMB measurement constructed by the script
(source lines 72-79). -/
def planck : Measurement :=
  { name := "Planck 2018 CMB", value := 67.4, sigma := 0.5,
    redshift := 1090, omega_m := 0.315, method := "indirect" }

/-- The SH0ES distance-ladder measurement constructed by the script
(source lines 81-88). -/
def shoes : Measurement :=
  { name := "SH0ES Distance Ladder", value := 73.47, sigma := 0.14,
    redshift := 0.01, omega_m := 0.300, method := "direct" }

/-- The initial tension gap computed by the script (source line 102):
`initial_gap = abs(shoes.value - planck.value)`. -/
def initial_gap : ℚ := |shoes.value - planck.value|

/-- The body of `main` (source lines 52-169) with the two external engine
calls as abstract parameters: merge planck with shoes, compute concordance
stats of the merged estimate against planck, derive the tension-reduction
percentage (line 131), and return the five-key dictionary (lines 163-169). -/
def main (mwec : Measurement → Measurement → MergeOutput)
    (ccs : ℚ → ℚ → ℚ → ℚ → ConcordanceOutput) : MainOutput :=
  let result := mwec planck shoes
  let stats := ccs result.h0_merged result.u_merged planck.value planck.sigma
  let reduction_pct := (1 - stats.offset_km_s_Mpc / initial_gap) * 100
  { h0_merged := result.h0_merged
    u_merged := result.u_merged
    delta_T := result.delta_T
    concordance_pct := reduction_pct
    significance := stats.significance_sigma }

/-- The three significance classes the reporting step distinguishes. -/
inductive Classification where
  | concordant
  | mildTension
  | significantTension
deriving DecidableEq

/-- The classification branch of the script (source lines 145-150):
`if sig < 1.5` concordant, `elif sig < 3.0` mild tension, else significant
tension. -/
def classify (significance : ℚ) : Classification :=
  if significance < 1.5 then Classification.concordant
  else if significance < 3.0 then Classification.mildTension
  else Classification.significantTension

/-- Outcome of running the script module: either it exits with an error
code after printing a message, or it completes and `main` returns a result
dictionary. -/
inductive ScriptOutcome where
  | exitWithError (code : ℕ) (message : String)
  | completed (result : MainOutput)

/-- First line of the installation message printed when the dependency is
missing (source line 36). -/
def installMessage : String := "ERROR: UHA Official binary not installed"

/-- Module-level behaviour of the script (source lines 27-49 and 172-173):
if importing `uha_official` fails, print the installation message and exit
with status 1 without constructing any measurement; otherwise run `main`. -/
def runScript (uhaAvailable : Bool)
    (mwec : Measurement → Measurement → MergeOutput)
    (ccs : ℚ → ℚ → ℚ → ℚ → ConcordanceOutput) : ScriptOutcome :=
  if uhaAvailable then ScriptOutcome.completed (main mwec ccs)
  else ScriptOutcome.exitWithError 1 installMessage

/-- C1: every significance value is classified by the fixed thresholds:
strictly below 1.5 is concordant, at least 1.5 and strictly below 3.0 is
mild tension, and at least 3.0 is significant tension. -/
theorem classify_fixed_thresholds (s : ℚ) :
    (s < 1.5 → classify s = Classification.concordant) ∧
    (1.5 ≤ s → s < 3.0 → classify s = Classification.mildTension) ∧
    (3.0 ≤ s → classify s = Classification.significantTension) := by
  refine ⟨fun h => ?_, fun h1 h2 => ?_, fun h => ?_⟩
  · simp [classify, h]
  · simp [classify, not_lt.mpr h1, h2]
  · have h1 : ¬ s < 1.5 := not_lt.mpr (le_trans (by norm_num) h)
    simp [classify, h1, not_lt.mpr h]

/-- Witness for C1 at concrete significances 0, 2 and 4. -/
theorem classify_fixed_thresholds_witness :
    classify 0 = Classification.concordant ∧
    classify 2 = Classification.mildTension ∧
    classify 4 = Classification.significantTension :=
  ⟨(classify_fixed_thresholds 0).1 (by norm_num),
   (classify_fixed_thresholds 2).2.1 (by norm_num) (by norm_num),
   (classify_fixed_thresholds 4).2.2 (by norm_num)⟩

/-- C2: for every engine, the tension-reduction metric returned by `main`
is computed by the caller as `(1 - offset_after / offset_before) * 100`,
where `offset_before` is the absolute difference of the two input values
taken before merging and `offset_after` is the offset_km_s_Mpc returned by
the concordance step on the engine outputs. -/
theorem main_reduction_pct (mwec : Measurement → Measurement → MergeOutput)
    (ccs : ℚ → ℚ → ℚ → ℚ → ConcordanceOutput) :
    (main mwec ccs).concordance_pct =
      (1 - (ccs (mwec planck shoes).h0_merged (mwec planck shoes).u_merged
              planck.value planck.sigma).offset_km_s_Mpc /
            |shoes.value - planck.value|) * 100 := rfl

/-- C3: when the dependency cannot be imported, the script prints the
installation message and exits with status 1, for every engine (so before
any measurement is constructed or any computation is attempted). -/
theorem runScript_fails_fast (mwec : Measurement → Measurement → MergeOutput)
    (ccs : ℚ → ℚ → ℚ → ℚ → ConcordanceOutput) :
    runScript false mwec ccs = ScriptOutcome.exitWithError 1 installMessage := rfl

/-- C4: the reproduction run constructs exactly the two published seed
measurements (67.4 ± 0.5 indirect and 73.47 ± 0.14 direct) and the initial
gap it computes as the absolute difference of their values equals 6.07. -/
theorem seed_measurements_and_gap :
    planck.value = 67.4 ∧ planck.sigma = 0.5 ∧ planck.method = "indirect" ∧
    shoes.value = 73.47 ∧ shoes.sigma = 0.14 ∧ shoes.method = "direct" ∧
    initial_gap = 6.07 := by
  refine ⟨rfl, rfl, rfl, rfl, rfl, rfl, ?_⟩
  norm_num [initial_gap, planck, shoes]

/-- C9: whenever `main` completes, it returns the five-field dictionary
whose h0_merged, u_merged and delta_T are taken unchanged from the merge
result, whose concordance_pct is the computed reduction percentage, and
whose significance is the concordance step's significance_sigma. -/
theorem main_result_fields (mwec : Measurement → Measurement → MergeOutput)
    (ccs : ℚ → ℚ → ℚ → ℚ → ConcordanceOutput) :
    main mwec ccs =
      { h0_merged := (mwec planck shoes).h0_merged
        u_merged := (mwec planck shoes).u_merged
        delta_T := (mwec planck shoes).delta_T
        concordance_pct :=
          (1 - (ccs (mwec planck shoes).h0_merged (mwec planck shoes).u_merged
                  planck.value planck.sigma).offset_km_s_Mpc / initial_gap) * 100
        significance :=
          (ccs (mwec planck shoes).h0_merged (mwec planck shoes).u_merged
             planck.value planck.sigma).significance_sigma } := rfl

/-- C10: for every engine, the reference arguments passed to the
concordance step are the value and sigma of the indirect (Planck)
measurement, never those of the direct (SH0ES) one. -/
theorem concordance_reference_is_planck
    (mwec : Measurement → Measurement → MergeOutput)
    (ccs : ℚ → ℚ → ℚ → ℚ → ConcordanceOutput) :
    (main mwec ccs).significance =
      (ccs (mwec planck shoes).h0_merged (mwec planck shoes).u_merged
         planck.value planck.sigma).significance_sigma ∧
    planck.method = "indirect" ∧ shoes.method = "direct" := ⟨rfl, rfl, rfl⟩

end HubbleReproduction

namespace uha_official

/-- Modelled from the spec: the MeasurementModel value object of the absent
engine (spec section 3): name, central value, one-sigma uncertainty,
redshift, omega_m, and a categorical method tag. -/
structure MeasurementModel where
  name : String
  value : ℝ
  sigma : ℝ
  redshift : ℝ
  omega_m : ℝ
  method : String

/-- Modelled from the spec: the MergedEstimate record produced by the merge
step (spec section 3). -/
structure MergedEstimate where
  h0_merged : ℝ
  u_merged : ℝ
  delta_T : ℝ

/-- Modelled from the spec: the ConcordanceResult record produced by the
concordance analyzer (spec section 3). -/
structure ConcordanceResult where
  offset_km_s_Mpc : ℝ
  significance_sigma : ℝ

/-- Modelled from the spec: the error taxonomy of the absent engine
(spec section 7). -/
inductive UhaError where
  | validationError
  | unknownMethodError
  | degenerateInputError
deriving DecidableEq

/-- Modelled from the spec: `create_measurement` of the absent engine
(spec section 4.1): construction validates sigma > 0 and redshift ≥ 0,
failing with ValidationError otherwise, then requires the method tag to be
one of direct or indirect, failing with UnknownMethodError otherwise. -/
noncomputable def create_measurement (name : String)
    (value sigma redshift omega_m : ℝ) (method : String) :
    Except UhaError MeasurementModel :=
  if sigma ≤ 0 ∨ redshift < 0 then Except.error UhaError.validationError
  else if method = "direct" ∨ method = "indirect" then
    Except.ok { name := name, value := value, sigma := sigma,
                redshift := redshift, omega_m := omega_m, method := method }
  else Except.error UhaError.unknownMethodError

/-- Modelled from the spec: the naive tension of the absent merge step
(spec 4.2 step 1): the gap of the two values in combined-uncertainty
units. -/
noncomputable def delta_T (a b : MeasurementModel) : ℝ :=
  |a.value - b.value| / Real.sqrt (a.sigma ^ 2 + b.sigma ^ 2)

/-- Modelled from the spec: the precision-weighted mean of the absent merge
step (spec 4.2 step 2), with weights the inverse squared sigmas. -/
noncomputable def h0_raw (a b : MeasurementModel) : ℝ :=
  ((1 / a.sigma ^ 2) * a.value + (1 / b.sigma ^ 2) * b.value) /
    (1 / a.sigma ^ 2 + 1 / b.sigma ^ 2)

/-- Modelled from the spec: the value of the input whose method is direct
(spec 4.2 step 3 presumes exactly one input is direct when the methods
differ). -/
noncomputable def directValue (a b : MeasurementModel) : ℝ :=
  if a.method = "direct" then a.value else b.value

/-- Modelled from the spec: the method-bias correction of the absent merge
step (spec 4.2 step 3): when the methods differ, nudge the weighted mean
toward the direct measurement by the fraction f of the gap between them. -/
noncomputable def h0_adjusted (f : ℝ) (a b : MeasurementModel) : ℝ :=
  if a.method ≠ b.method then
    h0_raw a b + f * (directValue a b - h0_raw a b)
  else h0_raw a b

/-- Modelled from the spec: the Birge-ratio-style inflation factor of the
absent merge step (spec 4.2 step 4): `k = max(1, delta_T / threshold)`. -/
noncomputable def inflation (threshold : ℝ) (a b : MeasurementModel) : ℝ :=
  max 1 (delta_T a b / threshold)

/-- Modelled from the spec: the reconciled uncertainty of the absent merge
step (spec 4.2 step 5): `u_merged = k * sqrt(1 / (w_a + w_b))`. -/
noncomputable def u_merged (threshold : ℝ) (a b : MeasurementModel) : ℝ :=
  inflation threshold a b * Real.sqrt (1 / (1 / a.sigma ^ 2 + 1 / b.sigma ^ 2))

/-- Modelled from the spec: `merge` of the absent EpistemicMerger
(spec 4.2 step 6), parameterized by its two fixed configuration constants,
the bias fraction f and the inflation threshold. -/
noncomputable def merge (f threshold : ℝ) (a b : MeasurementModel) :
    MergedEstimate :=
  { h0_merged := h0_adjusted f a b
    u_merged := u_merged threshold a b
    delta_T := delta_T a b }

/-- Modelled from the spec: the defensive degenerate-input guard of the
absent merge step (spec 4.2, failure clause): a zero sigma on either input
fails with DegenerateInputError before the formulas run. -/
noncomputable def merge_checked (f threshold : ℝ) (a b : MeasurementModel) :
    Except UhaError MergedEstimate :=
  if a.sigma = 0 ∨ b.sigma = 0 then Except.error UhaError.degenerateInputError
  else Except.ok (merge f threshold a b)

/-- Modelled from the spec: `compute` of the absent ConcordanceAnalyzer
(spec 4.3): absolute offset from the reference and the offset in combined
uncertainty units. -/
noncomputable def compute (merged : MergedEstimate)
    (reference : MeasurementModel) : ConcordanceResult :=
  { offset_km_s_Mpc := |merged.h0_merged - reference.value|
    significance_sigma := |merged.h0_merged - reference.value| /
      Real.sqrt (merged.u_merged ^ 2 + reference.sigma ^ 2) }

/-- Concrete valid measurement used to witness the lower-bound claim. -/
noncomputable def mA5 : MeasurementModel :=
  { name := "A", value := 0, sigma := 1, redshift := 0, omega_m := 1,
    method := "direct" }

/-- Concrete valid measurement used to witness the lower-bound claim. -/
noncomputable def mB5 : MeasurementModel :=
  { name := "B", value := 6, sigma := 1, redshift := 0, omega_m := 1,
    method := "indirect" }

/-- Concrete measurement (value 0, sigma 1) for the monotonicity witness. -/
noncomputable def mA8 : MeasurementModel :=
  { name := "A", value := 0, sigma := 1, redshift := 0, omega_m := 1,
    method := "direct" }

/-- Concrete measurement (value 0, sigma 1) for the monotonicity witness. -/
noncomputable def mB8 : MeasurementModel :=
  { name := "B", value := 0, sigma := 1, redshift := 0, omega_m := 1,
    method := "indirect" }

/-- Concrete measurement (value 6, sigma 1) for the monotonicity witness,
differing from the first pair only in the value gap. -/
noncomputable def mC8 : MeasurementModel :=
  { name := "A", value := 6, sigma := 1, redshift := 0, omega_m := 1,
    method := "direct" }

/-- Concrete measurement (value 0, sigma 1) for the monotonicity witness. -/
noncomputable def mD8 : MeasurementModel :=
  { name := "B", value := 0, sigma := 1, redshift := 0, omega_m := 1,
    method := "indirect" }

/-- C5: for every pair of valid measurements, the merged uncertainty is at
least the naive precision-weighted combination
`sqrt(1 / (1 / a.sigma^2 + 1 / b.sigma^2))` of the input uncertainties:
the inflation factor never reduces it below the naive combined
precision. -/
theorem merge_u_merged_lower_bound (f t : ℝ) (a b : MeasurementModel)
    (ha : 0 < a.sigma) (hb : 0 < b.sigma) :
    Real.sqrt (1 / (1 / a.sigma ^ 2 + 1 / b.sigma ^ 2)) ≤
      (merge f t a b).u_merged :=
  le_mul_of_one_le_left (Real.sqrt_nonneg _) (le_max_left 1 _)

/-- Witness for C5: the lower bound holds at two concrete valid
measurements with unit sigmas and a gap of 6. -/
theorem merge_u_merged_lower_bound_witness :
    Real.sqrt (1 / (1 / mA5.sigma ^ 2 + 1 / mB5.sigma ^ 2)) ≤
      (merge 0.1 1 mA5 mB5).u_merged :=
  merge_u_merged_lower_bound 0.1 1 mA5 mB5 one_pos one_pos

/-- C6: the epistemic distance is symmetric in the two measurements:
`merge(a,b).delta_T = merge(b,a).delta_T` for every configuration and
every pair of inputs. -/
theorem merge_delta_T_symm (f t : ℝ) (a b : MeasurementModel) :
    (merge f t a b).delta_T = (merge f t b a).delta_T := by
  show delta_T a b = delta_T b a
  unfold delta_T
  rw [abs_sub_comm, add_comm (a.sigma ^ 2)]

/-- C7: construction yields ValidationError exactly when sigma is not
strictly positive or redshift is negative; for inputs passing that
validation it yields UnknownMethodError exactly when the method tag is
outside the two recognized tags, and otherwise returns the measurement
record unchanged (errors are returned directly to the caller, never caught
inside the engine). -/
theorem create_measurement_error_conditions (n : String)
    (v s r om : ℝ) (m : String) :
    ((create_measurement n v s r om m = Except.error UhaError.validationError)
        ↔ (s ≤ 0 ∨ r < 0)) ∧
    (0 < s → 0 ≤ r →
      ((create_measurement n v s r om m =
          Except.error UhaError.unknownMethodError)
        ↔ (m ≠ "direct" ∧ m ≠ "indirect"))) ∧
    (0 < s → 0 ≤ r → (m = "direct" ∨ m = "indirect") →
      create_measurement n v s r om m =
        Except.ok { name := n, value := v, sigma := s, redshift := r,
                    omega_m := om, method := m }) := by
  unfold create_measurement
  by_cases h1 : s ≤ 0 ∨ r < 0
  · rw [if_pos h1]
    refine ⟨by simp [h1], fun hs hr => ?_, fun hs hr _ => ?_⟩ <;>
      rcases h1 with h | h
    · exact absurd hs (not_lt.mpr h)
    · exact absurd hr (not_le.mpr h)
    · exact absurd hs (not_lt.mpr h)
    · exact absurd hr (not_le.mpr h)
  · rw [if_neg h1]
    by_cases h2 : m = "direct" ∨ m = "indirect"
    · rw [if_pos h2]
      refine ⟨by simp [h1], fun _ _ => ?_, fun _ _ _ => rfl⟩
      constructor
      · intro hcontra; exact absurd hcontra (by simp)
      · intro hm
        rcases h2 with h | h
        · exact absurd h hm.1
        · exact absurd h hm.2
    · rw [if_neg h2]
      push_neg at h2
      refine ⟨by simp [h1], fun _ _ => by simp [h2], fun _ _ hm => ?_⟩
      rcases hm with h | h
      · exact absurd h h2.1
      · exact absurd h h2.2

/-- Witness for C7: a non-positive sigma fails with ValidationError, an
unrecognized method tag fails with UnknownMethodError, and a fully valid
input constructs the record. -/
theorem create_measurement_error_conditions_witness :
    create_measurement "P" 67 (-1) 0 1 "direct" =
      Except.error UhaError.validationError ∧
    create_measurement "P" 67 1 0 1 "ladder" =
      Except.error UhaError.unknownMethodError ∧
    create_measurement "P" 67 1 0 1 "direct" =
      Except.ok { name := "P", value := 67, sigma := 1, redshift := 0,
                  omega_m := 1, method := "direct" } :=
  ⟨(create_measurement_error_conditions "P" 67 (-1) 0 1 "direct").1.mpr
      (Or.inl (by norm_num)),
   ((create_measurement_error_conditions "P" 67 1 0 1 "ladder").2.1
      one_pos le_rfl).mpr (by decide),
   (create_measurement_error_conditions "P" 67 1 0 1 "direct").2.2
      one_pos le_rfl (Or.inl rfl)⟩

/-- C8: with both sigmas held fixed, a larger absolute gap between the two
central values never yields a smaller merged uncertainty. -/
theorem merge_u_merged_monotone (f t : ℝ) (a b a2 b2 : MeasurementModel)
    (ht : 0 < t) (ha : 0 < a.sigma) (hb : 0 < b.sigma)
    (hsa : a2.sigma = a.sigma) (hsb : b2.sigma = b.sigma)
    (hgap : |a.value - b.value| ≤ |a2.value - b2.value|) :
    (merge f t a b).u_merged ≤ (merge f t a2 b2).u_merged := by
  show u_merged t a b ≤ u_merged t a2 b2
  unfold u_merged inflation delta_T
  rw [hsa, hsb]
  have hss : 0 < a.sigma ^ 2 + b.sigma ^ 2 :=
    add_pos (pow_pos ha 2) (pow_pos hb 2)
  have hs : 0 < Real.sqrt (a.sigma ^ 2 + b.sigma ^ 2) := Real.sqrt_pos.mpr hss
  have h1 : |a.value - b.value| / Real.sqrt (a.sigma ^ 2 + b.sigma ^ 2) / t ≤
      |a2.value - b2.value| / Real.sqrt (a.sigma ^ 2 + b.sigma ^ 2) / t :=
    (div_le_div_iff_of_pos_right ht).mpr
      ((div_le_div_iff_of_pos_right hs).mpr hgap)
  exact mul_le_mul_of_nonneg_right (max_le_max le_rfl h1) (Real.sqrt_nonneg _)

/-- Witness for C8: increasing the gap from 0 to 6 at unit sigmas does not
decrease the merged uncertainty. -/
theorem merge_u_merged_monotone_witness :
    (merge 0.1 1 mA8 mB8).u_merged ≤ (merge 0.1 1 mC8 mD8).u_merged :=
  merge_u_merged_monotone 0.1 1 mA8 mB8 mC8 mD8 one_pos one_pos one_pos
    rfl rfl (by simp [mA8, mB8, mC8, mD8])

end uha_official
